import Mathlib

/-!
Shallow embedding of the whatsapp-agent-supabase repository.

Source files embedded:
- src/whatsapp/bot.js: the WhatsAppBot class (handleMessage,
  processMessageWithAI, sendMessage, setupEventHandlers, initialize).
- the entry file (WhatsAppAISystem): health route, required-variable
  validation, exit codes, run guard.

JavaScript conventions used in the embedding:
- A JS value that may be null/undefined is an Option.
- JS truthiness on a string value: none and some "" are falsy.
- A call on an external collaborator that may throw is an Except Unit value
  (or a function returning one) supplied by an environment record.
- Effects of handleMessage (typing indicator, reply attempts, AI calls)
  are collected in order as a list of actions.
-/

namespace WABot

/-- Does the first character list start with the second one. -/
def startsWithChars : List Char → List Char → Bool
  | _, [] => true
  | [], _ :: _ => false
  | c :: cs, d :: ds => c == d && startsWithChars cs ds

/-- Does the first character list contain the second as a contiguous run. -/
def containsChars : List Char → List Char → Bool
  | [], sub => sub.isEmpty
  | c :: rest, sub => startsWithChars (c :: rest) sub || containsChars rest sub

/-- JS String.prototype.includes: does s contain sub as a substring. -/
def includesSub (s sub : String) : Bool :=
  containsChars s.toList sub.toList

/-- JS expression a || dflt on a nullable string a: keeps a when it is a
non-empty string, otherwise yields dflt. -/
def jsOrStr (a : Option String) (dflt : String) : String :=
  match a with
  | some s => if s = "" then dflt else s
  | none => dflt

/-- Contact object delivered by message.getContact(): name may be absent. -/
structure Contact where
  name : Option String
  number : String
deriving DecidableEq, Repr

/-- Inbound WhatsApp message as read by handleMessage: fromMe flag, type
string ("chat" means plain text) and body text. -/
structure Msg where
  fromMe : Bool
  type : String
  body : String
deriving DecidableEq, Repr

/-- User context built by processMessageWithAI:
name: contact.name || "Usuário", number, timestamp. -/
structure UserContext where
  name : String
  number : String
  timestamp : String
deriving DecidableEq, Repr

/-- Builds the userContext object of processMessageWithAI from the contact
and the current ISO timestamp. -/
def mkUserContext (contact : Contact) (ts : String) : UserContext :=
  { name := jsOrStr contact.name "Usuário"
  , number := contact.number
  , timestamp := ts }

/-- Opaque AI response object; the code only reads its response text field,
which may be absent. -/
structure AIResp where
  response : Option String
deriving DecidableEq, Repr

/-- The external AI agent: aiAgent.processMessage(messageText, userContext),
which may throw (error) or resolve to a nullable response object. -/
def AIAgent : Type :=
  String → UserContext → Except Unit (Option AIResp)

/-- The external response formatter: responseFormatter.format(aiResponse),
which may throw or return a nullable string. -/
def Formatter : Type :=
  Option AIResp → Except Unit (Option String)

/-- Observable actions of handleMessage, in order: typing indicator attempt,
a reply attempt with the given text, a call of aiAgent.processMessage. -/
inductive Action where
  | typing : Action
  | replyAttempt (text : String) : Action
  | aiCall (text : String) (ctx : UserContext) : Action
deriving DecidableEq, Repr

/-- Fixed reply of handleMessage for non-text message types. -/
def unsupportedTypeMsg : String :=
  "🤖 Desculpe, eu só processo mensagens de texto no momento."

/-- Fixed fallback reply of handleMessage when no response text was
produced by the AI path. -/
def noResponseMsg : String :=
  "🤖 Desculpe, não consegui processar sua mensagem no momento."

/-- Fixed reply sent from the outer catch of handleMessage. -/
def errorReplyMsg : String :=
  "🤖 Desculpe, ocorreu um erro ao processar sua mensagem. Tente novamente."

/-- Fixed return of processMessageWithAI when this.aiAgent is unset. -/
def aiUnavailableMsg : String :=
  "🤖 Sistema de IA não está disponível. Tente novamente em alguns instantes."

/-- Fixed fallback used when this.responseFormatter is unset and the AI
response carries no text. -/
def fmtMissingMsg : String :=
  "🤖 Erro na formatação da resposta."

/-- Fixed return of the catch block of processMessageWithAI. -/
def aiErrorMsg : String :=
  "🤖 Desculpe, não consegui processar sua solicitação. Verifique se sua mensagem está clara e tente novamente."

/-- Environment of one handleMessage run: results of the external calls the
handler awaits, plus the bot fields this.aiAgent and this.responseFormatter
and the timestamp taken during the run. -/
structure Env where
  getContact : Except Unit Contact
  getChat : Except Unit Unit
  sendStateTyping : Except Unit Unit
  replyResult : String → Except Unit Unit
  ai : Option AIAgent
  fmt : Option Formatter
  ts : String

/-- processMessageWithAI(messageText, contact): returns the resolved value
(a nullable string; the function never throws, every failure is caught) and
the list of AI calls it performed. -/
def processMessageWithAI (ai : Option AIAgent) (fmt : Option Formatter)
    (messageText : String) (contact : Contact) (ts : String) :
    Option String × List Action :=
  let userContext := mkUserContext contact ts
  match ai with
  | none => (some aiUnavailableMsg, [])
  | some agent =>
    match agent messageText userContext with
    | Except.error _ => (some aiErrorMsg, [Action.aiCall messageText userContext])
    | Except.ok aiResponse =>
      match fmt with
      | none =>
        (some (jsOrStr (aiResponse.bind AIResp.response) fmtMissingMsg),
         [Action.aiCall messageText userContext])
      | some f =>
        match f aiResponse with
        | Except.error _ => (some aiErrorMsg, [Action.aiCall messageText userContext])
        | Except.ok formatted => (formatted, [Action.aiCall messageText userContext])

/-- Text handleMessage replies with, given the resolved value of
processMessageWithAI: the value itself when truthy, otherwise the fixed
fallback apology (the if (response) branch). -/
def replyTarget (out : Option String) : String :=
  match out with
  | some s => if s = "" then noResponseMsg else s
  | none => noResponseMsg

/-- One reply attempt: the attempt itself is always recorded; when the
reply throws, the outer catch appends its own actions. -/
def attemptReply (env : Env) (text : String) (onError : List Action) : List Action :=
  match env.replyResult text with
  | Except.ok _ => [Action.replyAttempt text]
  | Except.error _ => Action.replyAttempt text :: onError

/-- Actions of the outer catch block of handleMessage: it attempts the fixed
error reply; a failure of that reply is only logged. -/
def catchActions : List Action :=
  [Action.replyAttempt errorReplyMsg]

/-- handleMessage(message): the ordered list of observable actions of one
run, following src/whatsapp/bot.js line by line. -/
def handleMessage (env : Env) (msg : Msg) : List Action :=
  if msg.fromMe then []
  else
    match env.getContact with
    | Except.error _ => catchActions
    | Except.ok contact =>
      match env.getChat with
      | Except.error _ => catchActions
      | Except.ok _ =>
        if msg.type ≠ "chat" then
          attemptReply env unsupportedTypeMsg catchActions
        else
          Action.typing ::
          match env.sendStateTyping with
          | Except.error _ => catchActions
          | Except.ok _ =>
            let r := processMessageWithAI env.ai env.fmt msg.body contact env.ts
            r.2 ++ attemptReply env (replyTarget r.1) catchActions

/-- Did an external call resolve without throwing. -/
def callOk {α : Type} : Except Unit α → Bool
  | Except.ok _ => true
  | Except.error _ => false

/-- Chat id normalization of sendMessage: number itself when it already
contains "@c.us", otherwise number with "@c.us" appended. -/
def mkChatId (number : String) : String :=
  if includesSub number "@c.us" then number else number ++ "@c.us"

/-- sendMessage(number, message): returns the boolean result and the
transport invocation client.sendMessage(chatId, message) when one happened.
When isReady is false the function throws internally, the catch returns
false and the transport is never touched; when the transport itself throws,
the catch also returns false. -/
def sendMessage (isReady : Bool)
    (transport : String → String → Except Unit Unit)
    (number text : String) : Bool × Option (String × String) :=
  if isReady then
    match transport (mkChatId number) text with
    | Except.ok _ => (true, some (mkChatId number, text))
    | Except.error _ => (false, some (mkChatId number, text))
  else
    (false, none)

/-- Event names whose callbacks setupEventHandlers registers on the client,
in registration order (src/whatsapp/bot.js lines 73 to 129). -/
def registeredEventNames : List String :=
  ["qr", "ready", "authenticated", "loading_screen", "message",
   "disconnected", "auth_failure", "error"]

/-- Delay of the fallback ready timer armed by initialize, in milliseconds. -/
def initTimeoutDelayMs : Nat := 45000

/-- Events that can change the readiness flag or the timer: the firing of
the fallback timer and the client events handled by setupEventHandlers. -/
inductive WEvent where
  | timerFires : WEvent
  | qr : WEvent
  | ready : WEvent
  | authenticated : WEvent
  | loadingScreen : WEvent
  | messageEv : WEvent
  | disconnected : WEvent
  | authFailure : WEvent
  | errorEv : WEvent
deriving DecidableEq, Repr, Fintype

/-- Readiness-relevant state of the bot: the isReady flag and whether the
fallback timer is still armed. -/
structure BotFlags where
  isReady : Bool
  timerArmed : Bool
deriving DecidableEq, Repr, Fintype

/-- State right after initialize: isReady false (constructor), fallback
timer armed. -/
def initFlags : BotFlags :=
  { isReady := false, timerArmed := true }

/-- Transition on the readiness state, from the handlers of
setupEventHandlers and the setTimeout callback of initialize:
the timer callback runs forceReady only when isReady is still false (the
one-shot timer is spent either way); the ready handler clears the timer and
sets isReady; the disconnected handler clears isReady; every other handler
leaves the state alone. -/
def botStep (s : BotFlags) : WEvent → BotFlags
  | WEvent.timerFires =>
    if s.timerArmed then
      if s.isReady then { s with timerArmed := false }
      else { isReady := true, timerArmed := false }
    else s
  | WEvent.ready => { isReady := true, timerArmed := false }
  | WEvent.disconnected => { s with isReady := false }
  | _ => s

/-- Snapshot of the constructed sub-components as far as the health route
reads them: the WhatsApp bot readiness, the Supabase connectivity flag and
the AI agent readiness, each absent until constructed. -/
structure SystemComponents where
  whatsappBot : Option Bool
  supabaseExecutor : Option Bool
  aiAgent : Option Bool
deriving DecidableEq, Repr

/-- Body of the GET /health response. -/
structure HealthResponse where
  status : String
  whatsapp : Bool
  supabase : Bool
  ai : Bool
deriving DecidableEq, Repr

/-- The GET /health handler: each boolean is component?.flag || false. -/
def healthHandler (s : SystemComponents) : HealthResponse :=
  { status := "healthy"
  , whatsapp := s.whatsappBot.getD false
  , supabase := s.supabaseExecutor.getD false
  , ai := s.aiAgent.getD false }

/-- The three required environment variables checked by initialize. -/
def requiredEnvVars : List String :=
  ["OPENAI_API_KEY", "SUPABASE_URL", "SUPABASE_KEY"]

/-- JS truthiness of process.env[v]: unset and empty string are falsy. -/
def truthyEnvVal : Option String → Bool
  | none => false
  | some s => !(s == "")

/-- required.filter(v => !process.env[v]). -/
def missingEnvVars (env : String → Option String) : List String :=
  requiredEnvVars.filter (fun v => !(truthyEnvVal (env v)))

/-- Outcome of starting the process: an exit with a code (and the error
message reported, when one was), or reaching the running server. -/
inductive StartOutcome where
  | exited (code : Nat) (message : Option String) : StartOutcome
  | running : StartOutcome
deriving DecidableEq, Repr

/-- Exit code of an outcome, none when the process kept running. -/
def exitCode : StartOutcome → Option Nat
  | StartOutcome.exited c _ => some c
  | StartOutcome.running => none

/-- The message of the configuration error thrown when variables are
missing. -/
def missingVarsMessage (missing : List String) : String :=
  "Variáveis obrigatórias não configuradas: " ++ String.intercalate ", " missing

/-- The module-level guard: when global.systemRunning is already set the
process exits with code 0 before anything else runs. -/
def guardCheck (systemRunning : Bool) : Option StartOutcome :=
  if systemRunning then some (StartOutcome.exited 0 none) else none

/-- WhatsAppAISystem.initialize: validates the required variables, then
runs the remaining startup steps (component construction, Supabase test,
bot initialize, HTTP listen), abstracted as startup, which may throw with a
message; any thrown error is caught and the process exits with code 1. -/
def systemInitialize (env : String → Option String)
    (startup : Except String Unit) : StartOutcome :=
  let missing := missingEnvVars env
  if missing.length > 0 then
    StartOutcome.exited 1 (some (missingVarsMessage missing))
  else
    match startup with
    | Except.error e => StartOutcome.exited 1 (some e)
    | Except.ok _ => StartOutcome.running

/-- WhatsAppAISystem.shutdown always ends in process.exit(0). -/
def shutdownOutcome : StartOutcome :=
  StartOutcome.exited 0 none

/-- Concrete agent for the scenario of C1: resolves to an object with
response text "Hello!". -/
def helloAgent : AIAgent :=
  fun _ _ => Except.ok (some { response := some "Hello!" })

/-- Formatter of the C1 scenario: returns the text of its input unchanged. -/
def idFormatter : Formatter :=
  fun r => Except.ok (r.bind AIResp.response)

/-- Environment of the C1 scenario: every external call succeeds, the AI
agent answers "Hello!", the formatter passes text through. -/
def okEnvHello : Env :=
  { getContact := Except.ok { name := some "Alice", number := "5511999" }
  , getChat := Except.ok ()
  , sendStateTyping := Except.ok ()
  , replyResult := fun _ => Except.ok ()
  , ai := some helloAgent
  , fmt := some idFormatter
  , ts := "2024-01-01T00:00:00.000Z" }

/-- Inbound text "Hi" from a non-self contact. -/
def hiMsg : Msg :=
  { fromMe := false, type := "chat", body := "Hi" }

/-- A non-text (image) message from a non-self contact. -/
def imageMsg : Msg :=
  { fromMe := false, type := "image", body := "" }

/-- A self-authored message. -/
def selfMsg : Msg :=
  { fromMe := true, type := "chat", body := "note to self" }

/-- An AI agent whose processMessage always throws. -/
def throwingAgent : AIAgent :=
  fun _ _ => Except.error ()

/-- Contact for witnesses. -/
def someContact : Contact :=
  { name := none, number := "5511000" }

/-- Environment example with SUPABASE_KEY unset and the other two required
variables set. -/
def envMissingKey : String → Option String :=
  fun v => if v = "SUPABASE_KEY" then none else some "value"

/-- C1: for every inbound text message (type "chat") not authored by the bot
itself, when the external lookups, the typing indicator and the reply all
resolve, handleMessage calls the AI dispatch path (processMessageWithAI) and
replies on the same message with that path's output when a non-empty text was
produced, and with the fixed fallback apology when no text was produced. -/
theorem handleMessage_text_dispatch (env : Env) (msg : Msg) (contact : Contact)
    (hSelf : msg.fromMe = false) (hType : msg.type = "chat")
    (hContact : env.getContact = Except.ok contact)
    (hChat : env.getChat = Except.ok ())
    (hTyping : env.sendStateTyping = Except.ok ())
    (hReply : env.replyResult
      (replyTarget (processMessageWithAI env.ai env.fmt msg.body contact env.ts).1) =
      Except.ok ()) :
    handleMessage env msg =
      Action.typing ::
        (processMessageWithAI env.ai env.fmt msg.body contact env.ts).2 ++
        [Action.replyAttempt
          (replyTarget (processMessageWithAI env.ai env.fmt msg.body contact env.ts).1)] := by
  simp [handleMessage, hSelf, hType, hContact, hChat, hTyping, attemptReply, hReply]

/-- C1 witness: inbound text "Hi" from a non-self contact, AI agent resolving
to response "Hello!", formatter returning the text unchanged: the handler
signals typing, calls the AI once and replies exactly "Hello!". -/
theorem handleMessage_text_dispatch_check :
    handleMessage okEnvHello hiMsg =
      [Action.typing,
       Action.aiCall "Hi"
         { name := "Alice", number := "5511999",
           timestamp := "2024-01-01T00:00:00.000Z" },
       Action.replyAttempt "Hello!"] := by
  have h := handleMessage_text_dispatch okEnvHello hiMsg
    { name := some "Alice", number := "5511999" } rfl rfl rfl rfl rfl rfl
  exact h.trans (by decide)

/-- C2: for every inbound non-self message whose type is not "chat",
handleMessage never calls the AI agent, and when the contact and chat
lookups resolve its first action is the fixed unsupported-type reply. -/
theorem handleMessage_nonText (env : Env) (msg : Msg)
    (hSelf : msg.fromMe = false) (hType : msg.type ≠ "chat") :
    (∀ t ctx, Action.aiCall t ctx ∉ handleMessage env msg) ∧
    (∀ contact, env.getContact = Except.ok contact → env.getChat = Except.ok () →
      (handleMessage env msg).head? = some (Action.replyAttempt unsupportedTypeMsg)) := by
  have hmsg : handleMessage env msg =
      (match env.getContact with
       | Except.error _ => catchActions
       | Except.ok _ =>
         match env.getChat with
         | Except.error _ => catchActions
         | Except.ok _ => attemptReply env unsupportedTypeMsg catchActions) := by
    cases hc : env.getContact with
    | error e => simp [handleMessage, hSelf, hc]
    | ok contact =>
      cases hch : env.getChat with
      | error e => simp [handleMessage, hSelf, hc, hch]
      | ok u => simp [handleMessage, hSelf, ne_eq, hType, hc, hch]
  constructor
  · intro t ctx
    rw [hmsg]
    cases env.getContact with
    | error e => simp [catchActions]
    | ok c =>
      cases env.getChat with
      | error e => simp [catchActions]
      | ok u =>
        unfold attemptReply
        cases env.replyResult unsupportedTypeMsg with
        | ok v => simp
        | error v => simp [catchActions]
  · intro contact hc hch
    rw [hmsg, hc, hch]
    unfold attemptReply
    cases env.replyResult unsupportedTypeMsg with
    | ok v => rfl
    | error v => rfl

/-- C2 witness: an inbound image message in the otherwise healthy
environment triggers the unsupported-type reply and no AI call. -/
theorem handleMessage_nonText_check :
    Action.aiCall "Hi"
        { name := "Alice", number := "5511999",
          timestamp := "2024-01-01T00:00:00.000Z" } ∉
      handleMessage okEnvHello imageMsg ∧
    (handleMessage okEnvHello imageMsg).head? =
      some (Action.replyAttempt unsupportedTypeMsg) := by
  have h := handleMessage_nonText okEnvHello imageMsg rfl (by decide)
  exact ⟨h.1 _ _, h.2 { name := some "Alice", number := "5511999" } rfl rfl⟩

/-- C3: for every inbound message with fromMe true, handleMessage performs
no action at all: no reply, no typing signal, no AI call. -/
theorem handleMessage_fromMe (env : Env) (msg : Msg)
    (hSelf : msg.fromMe = true) :
    handleMessage env msg = [] := by
  simp [handleMessage, hSelf]

/-- C3 witness: a self-authored text message produces the empty action
list. -/
theorem handleMessage_fromMe_check :
    handleMessage okEnvHello selfMsg = [] :=
  handleMessage_fromMe okEnvHello selfMsg rfl

/-- C4: processMessageWithAI never propagates an exception: with the AI
agent unset it resolves to the fixed unavailability string, and with an
agent whose processMessage throws it resolves to the fixed apology
string. -/
theorem processMessageWithAI_no_throw (fmt : Option Formatter) (text : String)
    (contact : Contact) (ts : String) (agent : AIAgent)
    (hThrow : agent text (mkUserContext contact ts) = Except.error ()) :
    (processMessageWithAI none fmt text contact ts).1 = some aiUnavailableMsg ∧
    (processMessageWithAI (some agent) fmt text contact ts).1 = some aiErrorMsg := by
  refine ⟨rfl, ?_⟩
  simp [processMessageWithAI, hThrow]

/-- C4 witness: at a concrete contact and text, the unset-agent and the
throwing-agent cases resolve to the two fixed strings. -/
theorem processMessageWithAI_no_throw_check :
    (processMessageWithAI none none "x" someContact "t").1 = some aiUnavailableMsg ∧
    (processMessageWithAI (some throwingAgent) none "x" someContact "t").1 =
      some aiErrorMsg :=
  processMessageWithAI_no_throw none "x" someContact "t" throwingAgent rfl

/-- C5: whenever the ready flag is false, sendMessage returns false and the
underlying transport send is never invoked. -/
theorem sendMessage_notReady (transport : String → String → Except Unit Unit)
    (number text : String) :
    sendMessage false transport number text = (false, none) := rfl

/-- C6: readiness lifecycle: initialize arms the 45000 ms fallback timer
with the flag down; the timer firing while armed leaves the flag true; the
ready handler raises the flag and disarms the timer; the disconnected
handler clears the flag; no event other than ready or the timer firing can
raise the flag. -/
theorem readiness_lifecycle :
    (initTimeoutDelayMs = 45 * 1000 ∧ initFlags.timerArmed = true ∧
      initFlags.isReady = false) ∧
    (∀ s : BotFlags, s.timerArmed = true →
      (botStep s WEvent.timerFires).isReady = true) ∧
    (∀ s : BotFlags, (botStep s WEvent.ready).isReady = true ∧
      (botStep s WEvent.ready).timerArmed = false) ∧
    (∀ s : BotFlags, (botStep s WEvent.disconnected).isReady = false) ∧
    (∀ (s : BotFlags) (e : WEvent), (botStep s e).isReady = true →
      s.isReady = true ∨ e = WEvent.ready ∨ e = WEvent.timerFires) := by
  refine ⟨by decide, by decide, by decide, by decide, by decide⟩

/-- C6 witness: from the post-initialize state, the timer firing raises the
flag, the ready event raises the flag, a disconnect clears it, and the
only-raised-by rule applied at the ready event. -/
theorem readiness_lifecycle_check :
    (botStep initFlags WEvent.timerFires).isReady = true ∧
    (botStep initFlags WEvent.ready).isReady = true ∧
    (botStep { isReady := true, timerArmed := false } WEvent.disconnected).isReady = false ∧
    (initFlags.isReady = true ∨ WEvent.ready = WEvent.ready ∨
      WEvent.ready = WEvent.timerFires) := by
  have h := readiness_lifecycle
  exact ⟨h.2.1 initFlags rfl, (h.2.2.1 initFlags).1,
    h.2.2.2.1 { isReady := true, timerArmed := false },
    h.2.2.2.2 initFlags WEvent.ready (h.2.2.1 initFlags).1⟩

/-- C7: every GET /health response has status "healthy" with the three
boolean component fields, and with no component constructed yet all three
booleans are false. -/
theorem health_route_shape :
    (∀ s : SystemComponents, (healthHandler s).status = "healthy") ∧
    healthHandler { whatsappBot := none, supabaseExecutor := none, aiAgent := none } =
      { status := "healthy", whatsapp := false, supabase := false, ai := false } :=
  ⟨fun _ => rfl, rfl⟩

/-- C8: the run guard and graceful shutdown exit with code 0; any thrown
startup error exits with code 1; with SUPABASE_KEY unset (or empty)
initialization exits with code 1 reporting the message built from the list
of missing variables, a list containing SUPABASE_KEY. -/
theorem exit_codes (env : String → Option String) (startup : Except String Unit)
    (hKey : truthyEnvVal (env "SUPABASE_KEY") = false) :
    guardCheck true = some (StartOutcome.exited 0 none) ∧
    shutdownOutcome = StartOutcome.exited 0 none ∧
    (∀ (env2 : String → Option String) (e2 : String),
      exitCode (systemInitialize env2 (Except.error e2)) = some 1) ∧
    systemInitialize env startup =
      StartOutcome.exited 1 (some (missingVarsMessage (missingEnvVars env))) ∧
    "SUPABASE_KEY" ∈ missingEnvVars env := by
  have hmem : "SUPABASE_KEY" ∈ missingEnvVars env := by
    unfold missingEnvVars
    rw [List.mem_filter]
    exact ⟨by decide, by rw [hKey]; rfl⟩
  have hlen : 0 < (missingEnvVars env).length :=
    List.length_pos.mpr (List.ne_nil_of_mem hmem)
  refine ⟨rfl, rfl, ?_, ?_, hmem⟩
  · intro env2 e2
    by_cases hc : 0 < (missingEnvVars env2).length
    · simp [systemInitialize, exitCode, hc]
    · simp [systemInitialize, exitCode, hc]
  · simp [systemInitialize, hlen]

/-- C8 witness: with SUPABASE_KEY unset and the other required variables
set, startup exits with code 1 and the reported missing list contains
SUPABASE_KEY; a thrown startup error also exits with code 1; the guard
exits with code 0. -/
theorem exit_codes_check :
    guardCheck true = some (StartOutcome.exited 0 none) ∧
    exitCode (systemInitialize envMissingKey (Except.error "boom")) = some 1 ∧
    systemInitialize envMissingKey (Except.ok ()) =
      StartOutcome.exited 1
        (some (missingVarsMessage (missingEnvVars envMissingKey))) ∧
    "SUPABASE_KEY" ∈ missingEnvVars envMissingKey := by
  have h := exit_codes envMissingKey (Except.ok ()) (by decide)
  exact ⟨h.1, h.2.2.1 envMissingKey "boom", h.2.2.2.1, h.2.2.2.2⟩

/-- C9 counterexample: setupEventHandlers does not register six event
callbacks. -/
theorem registers_six_events_false :
    ¬ registeredEventNames.length = 6 := by
  decide

/-- C9 amended: initialize registers exactly eight event callbacks on the
chat session client, via setupEventHandlers. -/
theorem registers_eight_events :
    registeredEventNames.length = 8 := by
  decide

/-- C10: with the ready flag true, sendMessage invokes the transport with
the chat id equal to number when it already contains "@c.us" and number
with "@c.us" appended otherwise, and returns true exactly when the
transport call resolves, false (without throwing) when it throws. -/
theorem sendMessage_ready_normalizes
    (transport : String → String → Except Unit Unit) (number text : String) :
    (sendMessage true transport number text).2 = some (mkChatId number, text) ∧
    mkChatId number =
      (if includesSub number "@c.us" then number else number ++ "@c.us") ∧
    (sendMessage true transport number text).1 =
      callOk (transport (mkChatId number) text) := by
  refine ⟨?_, rfl, ?_⟩
  · cases h : transport (mkChatId number) text with
    | ok v => simp [sendMessage, h]
    | error v => simp [sendMessage, h]
  · cases h : transport (mkChatId number) text with
    | ok v => simp [sendMessage, callOk, h]
    | error v => simp [sendMessage, callOk, h]

end WABot
